import Mathlib

/-!
Verification of the geospatial query and retrieval service of the
mcdonalds_scraper repository: a shallow embedding of the record store
(`src/database/database.py`), the service API handlers (`src/api/api.py`)
and the coordinate backfill (`src/utils/geocode_outlets.py`), together
with theorems settling the specification claims about them.

Python floats are modelled as rationals (every IEEE double is a rational);
the idealized haversine computation of the nearby endpoint is carried out
over the real numbers.  SQLite rows are modelled as a list of `Row`
values, the autoincrement counter as `next_id`, and `CURRENT_TIMESTAMP`
as an explicit `now : Nat` argument.
-/

namespace McdScraper

/-! ### Characters and whitespace

Named characters used by the JSON serialization model.  `Char.ofNat 34`
is the double quote, `Char.ofNat 92` the backslash. -/

def cQuote : Char := Char.ofNat 34

def cBackslash : Char := Char.ofNat 92

/-- JSON whitespace predicate: space, tab, line feed, carriage return. -/
def isJsonWs (c : Char) : Bool :=
  c = Char.ofNat 32 || c = Char.ofNat 9 || c = Char.ofNat 10 || c = Char.ofNat 13

/-- Drop leading JSON whitespace. -/
def skipWs : List Char → List Char
  | [] => []
  | c :: rest => if isJsonWs c then skipWs rest else c :: rest

/-! ### JSON serialization of a list of strings

Models `json.dumps(list_of_strings)` and the restriction of `json.loads`
to string-array payloads, which is how `database.py` persists and reads
the `facilities` and `operating_hours` columns.  The encoder escapes the
two JSON metacharacters, uses the short escapes for the common control
characters, and writes other control characters as 4-digit hex escapes;
code points at and above 32 are kept literal (`json.dumps` would escape
non-ASCII code points, a representation difference that is invisible
through `json.loads`). -/

/-- Lowercase hexadecimal digit for a value below 16. -/
def hexDigit (n : Nat) : Char :=
  if n < 10 then Char.ofNat (48 + n) else Char.ofNat (87 + n)

/-- Value of a hexadecimal digit character, `none` for a non-digit. -/
def hexVal (c : Char) : Option Nat :=
  if 48 ≤ c.toNat ∧ c.toNat ≤ 57 then some (c.toNat - 48)
  else if 97 ≤ c.toNat ∧ c.toNat ≤ 102 then some (c.toNat - 87)
  else if 65 ≤ c.toNat ∧ c.toNat ≤ 70 then some (c.toNat - 55)
  else none

/-- Escape one character of a JSON string the way `json.dumps` does. -/
def escapeChar (c : Char) : List Char :=
  if c = cQuote then [cBackslash, cQuote]
  else if c = cBackslash then [cBackslash, cBackslash]
  else if c = Char.ofNat 10 then [cBackslash, Char.ofNat 110]
  else if c = Char.ofNat 9 then [cBackslash, Char.ofNat 116]
  else if c = Char.ofNat 13 then [cBackslash, Char.ofNat 114]
  else if c = Char.ofNat 8 then [cBackslash, Char.ofNat 98]
  else if c = Char.ofNat 12 then [cBackslash, Char.ofNat 102]
  else if c.toNat < 32 then
    [cBackslash, Char.ofNat 117, Char.ofNat 48, Char.ofNat 48,
      hexDigit (c.toNat / 16), hexDigit (c.toNat % 16)]
  else [c]

/-- Resolve a single-character JSON escape (the character after a backslash). -/
def unescapeChar (e : Char) : Option Char :=
  if e = cQuote then some cQuote
  else if e = cBackslash then some cBackslash
  else if e = Char.ofNat 47 then some (Char.ofNat 47)
  else if e = Char.ofNat 110 then some (Char.ofNat 10)
  else if e = Char.ofNat 116 then some (Char.ofNat 9)
  else if e = Char.ofNat 114 then some (Char.ofNat 13)
  else if e = Char.ofNat 98 then some (Char.ofNat 8)
  else if e = Char.ofNat 102 then some (Char.ofNat 12)
  else none

/-- Serialize one string as a quoted JSON string. -/
def encodeJsonString (s : List Char) : List Char :=
  cQuote :: s.flatMap escapeChar ++ [cQuote]

/-- Join encoded items with the `", "` separator `json.dumps` uses. -/
def joinComma : List (List Char) → List Char
  | [] => []
  | [x] => x
  | x :: y :: rest => x ++ Char.ofNat 44 :: Char.ofNat 32 :: joinComma (y :: rest)

/-- Models `json.dumps` on a list of strings. -/
def json_dumps (l : List String) : String :=
  String.mk (Char.ofNat 91 :: joinComma (l.map fun s => encodeJsonString s.toList) ++ [Char.ofNat 93])

/-- Parse the body of a JSON string after its opening quote; returns the
decoded characters and the input remaining after the closing quote. -/
def parseStringBody : List Char → Option (List Char × List Char)
  | [] => none
  | c :: rest =>
    if c = cQuote then some ([], rest)
    else if c = cBackslash then
      match rest with
      | [] => none
      | e :: rest2 =>
        if e = Char.ofNat 117 then
          match rest2 with
          | h1 :: h2 :: h3 :: h4 :: rest3 =>
            match hexVal h1, hexVal h2, hexVal h3, hexVal h4 with
            | some a, some b, some c3, some d =>
              match parseStringBody rest3 with
              | some (s, r) => some (Char.ofNat (a * 4096 + b * 256 + c3 * 16 + d) :: s, r)
              | none => none
            | _, _, _, _ => none
          | _ => none
        else
          match unescapeChar e with
          | some c2 =>
            match parseStringBody rest2 with
            | some (s, r) => some (c2 :: s, r)
            | none => none
          | none => none
    else
      match parseStringBody rest with
      | some (s, r) => some (c :: s, r)
      | none => none

/-- Parse a comma-separated run of JSON strings up to the closing bracket;
returns the items and the input remaining after the bracket.  The fuel
argument bounds the number of items and makes the recursion structural. -/
def parseItems : Nat → List Char → Option (List (List Char) × List Char)
  | 0, _ => none
  | fuel + 1, l =>
    match skipWs l with
    | [] => none
    | c :: rest =>
      if c = cQuote then
        match parseStringBody rest with
        | some (s, r) =>
          match skipWs r with
          | [] => none
          | c2 :: r2 =>
            if c2 = Char.ofNat 44 then
              match parseItems fuel r2 with
              | some (items, rem) => some (s :: items, rem)
              | none => none
            else if c2 = Char.ofNat 93 then some ([s], r2)
            else none
        | none => none
      else none

/-- Models `json.loads` restricted to arrays of strings, the only payloads
the store ever writes; any other input is a decode failure. -/
def json_loads (str : String) : Option (List String) :=
  match skipWs str.toList with
  | [] => none
  | c :: rest =>
    if c = Char.ofNat 91 then
      match skipWs rest with
      | [] => none
      | c2 :: rest2 =>
        if c2 = Char.ofNat 93 then (if skipWs rest2 = [] then some [] else none)
        else
          match parseItems (rest.length + 1) rest with
          | some (items, rem) =>
            if skipWs rem = [] then some (items.map fun cs => String.mk cs) else none
          | none => none
    else none

/-! ### Data model

`Outlet` is the dictionary shape produced by `Database.get_all_outlets`
and consumed by every API handler; `Row` is a persisted SQLite row of the
`outlets` table (the two sequence columns are stored serialized, and are
nullable at the schema level); `DB` is the store state: the rows in
insertion order plus the autoincrement counter.  Python floats are
modelled as rationals, `CURRENT_TIMESTAMP` as a `Nat` supplied by the
caller. -/

structure Outlet where
  id : Int
  name : String
  address : String
  telephone : Option String
  latitude : Option ℚ
  longitude : Option ℚ
  facilities : List String
  operating_hours : List String
  created_at : Nat
deriving DecidableEq

structure Row where
  id : Int
  name : String
  address : String
  telephone : Option String
  latitude : Option ℚ
  longitude : Option ℚ
  facilities : Option String
  operating_hours : Option String
  created_at : Nat
deriving DecidableEq

structure DB where
  rows : List Row
  next_id : Int
deriving DecidableEq

/-- The `outlet_data` dictionary passed to `insert_outlet`.  A `none` in
`name`/`address` covers both a missing key (Python `KeyError` on
`outlet_data['name']`) and an explicit `None` (SQLite `NOT NULL`
violation): in both cases the insert raises and rolls back. -/
structure OutletData where
  name : Option String
  address : Option String
  telephone : Option String
  latitude : Option ℚ
  longitude : Option ℚ
  facilities : Option (List String)
  operating_hours : Option (List String)
deriving DecidableEq

inductive DBError where
  | insertError
deriving DecidableEq

/-! ### Record store (`src/database/database.py`) -/

/-- Models `Database.insert_outlet`: serializes the two sequence fields
with `json.dumps` (defaulting to `[]` via `.get(..., [])`), inserts the
row, and commits.  The row gets the autoincrement id and the insertion
timestamp.  A missing/null `name` or `address` raises (`KeyError` or
`IntegrityError` from the `NOT NULL` constraint), the transaction is
rolled back and the exception propagates: the pair returned is the
outcome together with the resulting store state.  Note SQLite `NOT NULL`
rejects only NULL — the empty string is accepted. -/
def insert_outlet (db : DB) (now : Nat) (outlet_data : OutletData) : Except DBError Unit × DB :=
  match outlet_data.name, outlet_data.address with
  | some nm, some ad =>
    let row : Row :=
      { id := db.next_id, name := nm, address := ad,
        telephone := outlet_data.telephone,
        latitude := outlet_data.latitude, longitude := outlet_data.longitude,
        facilities := some (json_dumps (outlet_data.facilities.getD [])),
        operating_hours := some (json_dumps (outlet_data.operating_hours.getD [])),
        created_at := now }
    (Except.ok (), { rows := db.rows ++ [row], next_id := db.next_id + 1 })
  | _, _ => (Except.error DBError.insertError, db)

/-- Models `json.loads(row[i]) if row[i] else []`: a NULL or empty column
is treated as the empty sequence before any decoding is attempted; a
non-empty column is decoded, and a decode failure is an exception
(`none`). -/
def parse_field (v : Option String) : Option (List String) :=
  match v with
  | none => some []
  | some s => if s = "" then some [] else json_loads s

/-- Conversion of one fetched row to the outlet dictionary, `none` when a
`json.loads` call raises. -/
def row_to_outlet (row : Row) : Option Outlet := do
  let f ← parse_field row.facilities
  let h ← parse_field row.operating_hours
  pure { id := row.id, name := row.name, address := row.address,
         telephone := row.telephone,
         latitude := row.latitude, longitude := row.longitude,
         facilities := f, operating_hours := h, created_at := row.created_at }

/-- Models `Database.get_all_outlets`: converts every row in order; any
exception while converting (a corrupt serialized field) is caught by the
blanket `except Exception` handler, which logs and returns `[]`. -/
def get_all_outlets (rows : List Row) : List Outlet :=
  match rows.mapM row_to_outlet with
  | some outlets => outlets
  | none => []

/-- Every row of the store parses; this holds for every state the store
itself produces, since `insert_outlet` only writes `json.dumps` output. -/
def wf_rows (rows : List Row) : Prop :=
  ∀ r ∈ rows, (row_to_outlet r).isSome = true

/-! ### Coordinate backfill (`src/utils/geocode_outlets.py`) -/

/-- Models `Geocoder.update_outlet_coordinates`: runs
`UPDATE outlets SET latitude = ?, longitude = ? WHERE id = ?`, commits,
and returns `True` — without inspecting how many rows were affected. -/
def update_outlet_coordinates (db : DB) (outlet_id : Int) (lat lon : ℚ) : Bool × DB :=
  (true, { db with rows := db.rows.map fun r =>
      if r.id = outlet_id then { r with latitude := some lat, longitude := some lon } else r })

/-! ### String helpers for the API layer -/

/-- Does `hay` start with `needle`? -/
def startsWithSeq : List Char → List Char → Bool
  | _, [] => true
  | [], _ :: _ => false
  | a :: as, b :: bs => a == b && startsWithSeq as bs

/-- Occurrence of `needle` anywhere in `hay`. -/
def containsSeq : List Char → List Char → Bool
  | [], needle => needle.isEmpty
  | h :: t, needle => startsWithSeq (h :: t) needle || containsSeq t needle

/-- Python `needle in hay` on strings (argument order: haystack first). -/
def containsSubstr (hay needle : String) : Bool :=
  containsSeq hay.toList needle.toList

/-- Python `str.lower()` (character-wise lowering, as in ASCII text). -/
def lowerStr (s : String) : String :=
  String.mk (s.toList.map Char.toLower)

/-! ### Service API handlers (`src/api/api.py`)

Each handler body is modelled as a pure function of the outlet list the
handler fetches via `get_all_outlets`. -/

structure HTTPException where
  status_code : Nat
  detail : String
deriving DecidableEq

/-- The `try` body of the `/outlets/{outlet_id}` handler: linear scan for
the id, `HTTPException(404)` when absent. -/
def get_outlet_try (outlets : List Outlet) (outlet_id : Int) : Except HTTPException Outlet :=
  match outlets.find? (fun o => o.id == outlet_id) with
  | some outlet => Except.ok outlet
  | none => Except.error { status_code := 404, detail := "Outlet not found" }

/-- The full `/outlets/{outlet_id}` handler: the blanket
`except Exception` clause catches every exception raised in the `try`
body — including the `HTTPException(404)` just raised, since
`HTTPException` subclasses `Exception` — and re-raises
`HTTPException(500)`. -/
def get_outlet (outlets : List Outlet) (outlet_id : Int) : Except HTTPException Outlet :=
  match get_outlet_try outlets outlet_id with
  | Except.ok outlet => Except.ok outlet
  | Except.error _ => Except.error { status_code := 500, detail := "Internal server error" }

/-- The `/outlets` list handler: `if state:` applies the case-insensitive
substring filter only for a non-empty state (Python truthiness), then
`outlets[skip : skip + limit]`.  FastAPI validates `skip ≥ 0` (implicit
in `Nat`) and `1 ≤ limit ≤ 100` before the body runs. -/
def get_outlets (outlets : List Outlet) (skip limit : Nat) (state : Option String) : List Outlet :=
  let filtered := match state with
    | some s =>
      if s = "" then outlets
      else outlets.filter fun o => containsSubstr (lowerStr o.address) (lowerStr s)
    | none => outlets
  (filtered.drop skip).take limit

/-- The state filter as the specification words it: an optional
case-insensitive substring filter on the address. -/
def filter_by_state (outlets : List Outlet) (state : Option String) : List Outlet :=
  match state with
  | some s => outlets.filter fun o => containsSubstr (lowerStr o.address) (lowerStr s)
  | none => outlets

/-- Python truthiness of a nullable float: `None` and `0.0` are falsy. -/
def truthy (v : Option ℚ) : Bool :=
  match v with
  | none => false
  | some q => q != 0

/-- The state classification chain of the `/stats` handler: lower-cased
address tested against fixed substrings in priority order, first match
wins. -/
def classify_state (address : String) : String :=
  let a := lowerStr address
  if containsSubstr a "kuala lumpur" then "Kuala Lumpur"
  else if containsSubstr a "selangor" then "Selangor"
  else if containsSubstr a "johor" then "Johor"
  else "Other"

/-- The facilities tally of the `/stats` handler: a dict (modelled as a
total function defaulting to 0, matching `.get(facility, 0)`) bumped once
per facility occurrence of every outlet. -/
def facilities_count (outlets : List Outlet) : String → Nat :=
  outlets.foldl
    (fun acc o => o.facilities.foldl (fun acc2 f => Function.update acc2 f (acc2 f + 1)) acc)
    (fun _ => 0)

/-- The per-state tally of the `/stats` handler. -/
def outlets_by_state (outlets : List Outlet) : String → Nat :=
  outlets.foldl
    (fun acc o => Function.update acc (classify_state o.address) (acc (classify_state o.address) + 1))
    (fun _ => 0)

structure OutletStats where
  total_outlets : Nat
  outlets_with_coordinates : Nat
  facilities_count : String → Nat
  outlets_by_state : String → Nat

/-- The `/stats` handler body. -/
def get_stats (outlets : List Outlet) : OutletStats :=
  { total_outlets := outlets.length,
    outlets_with_coordinates := outlets.countP fun o => truthy o.latitude && truthy o.longitude,
    facilities_count := facilities_count outlets,
    outlets_by_state := outlets_by_state outlets }

/-! ### The `/nearby` handler

The haversine computation is idealized over the real numbers (Python
computes with IEEE doubles).  `atan2 y x` for the arguments arising here
(both non-negative) is the complex argument of `x + y·i`, matching
`math.atan2`.  `round2` models `round(d, 2)` (Python rounds halves to
even, a difference only on exact halves). -/

noncomputable def atan2 (y x : ℝ) : ℝ := Complex.arg ⟨x, y⟩

/-- The inner `calculate_distance` of the `/nearby` handler: haversine
with Earth radius 6371 km, inputs in degrees. -/
noncomputable def calculate_distance (lat1 lon1 lat2 lon2 : ℚ) : ℝ :=
  let R : ℝ := 6371
  let rlat1 := (lat1 : ℝ) * Real.pi / 180
  let rlon1 := (lon1 : ℝ) * Real.pi / 180
  let rlat2 := (lat2 : ℝ) * Real.pi / 180
  let rlon2 := (lon2 : ℝ) * Real.pi / 180
  let dlat := rlat2 - rlat1
  let dlon := rlon2 - rlon1
  let a := Real.sin (dlat / 2) ^ 2 + Real.cos rlat1 * Real.cos rlat2 * Real.sin (dlon / 2) ^ 2
  let c := 2 * atan2 (Real.sqrt a) (Real.sqrt (1 - a))
  R * c

/-- Rounding to 2 decimal places. -/
noncomputable def round2 (x : ℝ) : ℚ := (round (x * 100) : ℤ) / 100

open Classical in
/-- The filtering loop of the `/nearby` handler, in source order: keep
outlets with truthy coordinates, compute the distance, keep those within
the radius, attaching the rounded distance as `distance_km`. -/
noncomputable def nearby_candidates (outlets : List Outlet) (latitude longitude radius_km : ℚ) :
    List (Outlet × ℚ) :=
  (outlets.filter fun o => truthy o.latitude && truthy o.longitude).filterMap fun o =>
    if calculate_distance latitude longitude (o.latitude.getD 0) (o.longitude.getD 0)
        ≤ (radius_km : ℝ)
    then some (o, round2 (calculate_distance latitude longitude (o.latitude.getD 0) (o.longitude.getD 0)))
    else none

/-- The `/nearby` handler body: the candidate list sorted ascending by the
attached `distance_km` with Python's stable `list.sort` (modelled by the
stable `mergeSort`). -/
noncomputable def get_nearby_outlets (outlets : List Outlet) (latitude longitude radius_km : ℚ) :
    List (Outlet × ℚ) :=
  (nearby_candidates outlets latitude longitude radius_km).mergeSort fun p q => decide (p.2 ≤ q.2)

/-! ### JSON round-trip lemmas -/
theorem parseStringBody_quote (rest : List Char) :
    parseStringBody (cQuote :: rest) = some ([], rest) := by
  rw [parseStringBody.eq_def]
  simp

theorem parseStringBody_esc (e c2 : Char) (rest : List Char)
    (he : e ≠ Char.ofNat 117) (hu : unescapeChar e = some c2) :
    parseStringBody (cBackslash :: e :: rest) =
      (parseStringBody rest).map (fun p => (c2 :: p.1, p.2)) := by
  rw [parseStringBody.eq_def]
  simp only [he, hu, if_neg (show ¬(cBackslash = cQuote) by decide), if_pos rfl, if_false,
    ite_false, if_neg he]
  cases h : parseStringBody rest with
  | none => simp [h]
  | some p => simp [h]

theorem parseStringBody_plain (c : Char) (rest : List Char)
    (h1 : c ≠ cQuote) (h2 : c ≠ cBackslash) :
    parseStringBody (c :: rest) =
      (parseStringBody rest).map (fun p => (c :: p.1, p.2)) := by
  rw [parseStringBody.eq_def]
  simp only [if_neg h1, if_neg h2]
  cases h : parseStringBody rest with
  | none => simp [h]
  | some p => simp [h]



theorem parseStringBody_u (h1 h2 h3 h4 : Char) (a b c3 d : Nat) (rest : List Char)
    (e1 : hexVal h1 = some a) (e2 : hexVal h2 = some b)
    (e3 : hexVal h3 = some c3) (e4 : hexVal h4 = some d) :
    parseStringBody (cBackslash :: Char.ofNat 117 :: h1 :: h2 :: h3 :: h4 :: rest) =
      (parseStringBody rest).map
        (fun p => (Char.ofNat (a * 4096 + b * 256 + c3 * 16 + d) :: p.1, p.2)) := by
  rw [parseStringBody.eq_def]
  simp only [if_neg (show ¬(cBackslash = cQuote) by decide), if_pos rfl, if_pos (rfl : Char.ofNat 117 = Char.ofNat 117), e1, e2, e3, e4]
  cases h : parseStringBody rest with
  | none => simp [h]
  | some p => simp [h]

theorem hexVal_hexDigit : ∀ n : Nat, n < 16 → hexVal (hexDigit n) = some n := by decide

theorem parseStringBody_encode (s : List Char) (rest : List Char) :
    parseStringBody (s.flatMap escapeChar ++ cQuote :: rest) = some (s, rest) := by
  induction s with
  | nil => simpa using parseStringBody_quote rest
  | cons c s ih =>
    rw [List.flatMap_cons, List.append_assoc]
    by_cases hq : c = cQuote
    · subst hq
      rw [show escapeChar cQuote = [cBackslash, cQuote] from rfl]
      rw [show ([cBackslash, cQuote] : List Char) ++ (s.flatMap escapeChar ++ cQuote :: rest)
            = cBackslash :: cQuote :: (s.flatMap escapeChar ++ cQuote :: rest) from rfl]
      rw [parseStringBody_esc cQuote cQuote _ (by decide) (by decide), ih]
      rfl
    · by_cases hb : c = cBackslash
      · subst hb
        rw [show escapeChar cBackslash = [cBackslash, cBackslash] from rfl]
        rw [show ([cBackslash, cBackslash] : List Char) ++ (s.flatMap escapeChar ++ cQuote :: rest)
              = cBackslash :: cBackslash :: (s.flatMap escapeChar ++ cQuote :: rest) from rfl]
        rw [parseStringBody_esc cBackslash cBackslash _ (by decide) (by decide), ih]
        rfl
      · by_cases h10 : c = Char.ofNat 10
        · subst h10
          rw [show escapeChar (Char.ofNat 10) = [cBackslash, Char.ofNat 110] from rfl]
          simp only [List.cons_append, List.nil_append]
          rw [parseStringBody_esc (Char.ofNat 110) (Char.ofNat 10) _ (by decide) (by decide), ih]
          rfl
        · by_cases h9 : c = Char.ofNat 9
          · subst h9
            rw [show escapeChar (Char.ofNat 9) = [cBackslash, Char.ofNat 116] from rfl]
            simp only [List.cons_append, List.nil_append]
            rw [parseStringBody_esc (Char.ofNat 116) (Char.ofNat 9) _ (by decide) (by decide), ih]
            rfl
          · by_cases h13 : c = Char.ofNat 13
            · subst h13
              rw [show escapeChar (Char.ofNat 13) = [cBackslash, Char.ofNat 114] from rfl]
              simp only [List.cons_append, List.nil_append]
              rw [parseStringBody_esc (Char.ofNat 114) (Char.ofNat 13) _ (by decide) (by decide), ih]
              rfl
            · by_cases h8 : c = Char.ofNat 8
              · subst h8
                rw [show escapeChar (Char.ofNat 8) = [cBackslash, Char.ofNat 98] from rfl]
                simp only [List.cons_append, List.nil_append]
                rw [parseStringBody_esc (Char.ofNat 98) (Char.ofNat 8) _ (by decide) (by decide), ih]
                rfl
              · by_cases h12 : c = Char.ofNat 12
                · subst h12
                  rw [show escapeChar (Char.ofNat 12) = [cBackslash, Char.ofNat 102] from rfl]
                  simp only [List.cons_append, List.nil_append]
                  rw [parseStringBody_esc (Char.ofNat 102) (Char.ofNat 12) _ (by decide) (by decide), ih]
                  rfl
                · by_cases hlt : c.toNat < 32
                  · have h16a : c.toNat / 16 < 16 := by omega
                    have h16b : c.toNat % 16 < 16 := by omega
                    rw [show escapeChar c = [cBackslash, Char.ofNat 117, Char.ofNat 48, Char.ofNat 48,
                          hexDigit (c.toNat / 16), hexDigit (c.toNat % 16)] from by
                      simp only [escapeChar, if_neg hq, if_neg hb, if_neg h10, if_neg h9, if_neg h13,
                        if_neg h8, if_neg h12, if_pos hlt]]
                    simp only [List.cons_append, List.nil_append]
                    rw [parseStringBody_u _ _ _ _ 0 0 (c.toNat / 16) (c.toNat % 16) _ (by decide) (by decide)
                        (hexVal_hexDigit _ h16a) (hexVal_hexDigit _ h16b), ih]
                    have harith : 0 * 4096 + 0 * 256 + c.toNat / 16 * 16 + c.toNat % 16 = c.toNat := by omega
                    rw [harith, Char.ofNat_toNat]
                    rfl
                  · rw [show escapeChar c = [c] from by
                      simp only [escapeChar, if_neg hq, if_neg hb, if_neg h10, if_neg h9, if_neg h13,
                        if_neg h8, if_neg h12, if_neg hlt]]
                    simp only [List.cons_append, List.nil_append]
                    rw [parseStringBody_plain c _ hq hb, ih]
                    rfl



theorem mk_toList (s : String) : String.mk s.toList = s := rfl

theorem skipWs_not_ws (c : Char) (rest : List Char) (h : isJsonWs c = false) :
    skipWs (c :: rest) = c :: rest := by simp [skipWs, h]

theorem parseItems_ws (fuel : Nat) (c : Char) (l : List Char) (h : isJsonWs c = true) :
    parseItems (fuel + 1) (c :: l) = parseItems (fuel + 1) l := by
  simp only [parseItems]
  rw [show skipWs (c :: l) = skipWs l from by simp [skipWs, h]]

theorem length_le_joinComma_encode : ∀ ss : List (List Char),
    ss.length ≤ (joinComma (ss.map encodeJsonString)).length := by
  intro ss
  induction ss with
  | nil => simp [joinComma]
  | cons x tail ih =>
    cases tail with
    | nil => simp [joinComma, encodeJsonString]
    | cons y tl =>
      simp only [List.map_cons] at ih ⊢
      rw [joinComma]
      simp only [List.length_append, List.length_cons] at ih ⊢
      have hx : 2 ≤ (encodeJsonString x).length := by simp [encodeJsonString]
      omega

theorem skipWs_quote (rest : List Char) : skipWs (cQuote :: rest) = cQuote :: rest :=
  skipWs_not_ws _ _ (by decide)

theorem skipWs_rbrack (rest : List Char) :
    skipWs (Char.ofNat 93 :: rest) = Char.ofNat 93 :: rest :=
  skipWs_not_ws _ _ (by decide)

theorem skipWs_comma (rest : List Char) :
    skipWs (Char.ofNat 44 :: rest) = Char.ofNat 44 :: rest :=
  skipWs_not_ws _ _ (by decide)

theorem skipWs_space (rest : List Char) : skipWs (Char.ofNat 32 :: rest) = skipWs rest := by
  have h : isJsonWs (Char.ofNat 32) = true := by decide
  simp [skipWs, h]

theorem rbrack_ne_comma : (Char.ofNat 93 = Char.ofNat 44) = False := by decide

theorem comma_ne_rbrack : (Char.ofNat 44 = Char.ofNat 93) = False := by decide

theorem quote_ne_rbrack : (cQuote = Char.ofNat 93) = False := by decide

theorem parseItems_encode : ∀ (ss : List (List Char)) (fuel : Nat) (rem : List Char),
    ss ≠ [] → ss.length ≤ fuel →
    parseItems fuel (joinComma (ss.map encodeJsonString) ++ Char.ofNat 93 :: rem) = some (ss, rem) := by
  intro ss
  induction ss with
  | nil => intro fuel rem h; exact absurd rfl h
  | cons x tail ih =>
    intro fuel rem _ hlen
    cases fuel with
    | zero => simp at hlen
    | succ f =>
      cases tail with
      | nil =>
        simp only [List.map_cons, List.map_nil, joinComma, encodeJsonString,
          List.cons_append, List.singleton_append, List.append_assoc, List.nil_append]
        rw [parseItems]
        rw [skipWs_quote]
        simp [parseStringBody_encode, skipWs_rbrack, rbrack_ne_comma]
      | cons y tl =>
        have hf : 1 ≤ f := by simp at hlen; omega
        obtain ⟨f2, rfl⟩ : ∃ f2, f = f2 + 1 := ⟨f - 1, by omega⟩
        have hstep := ih (f2 + 1) rem (by simp) (by simp at hlen ⊢; omega)
        have hstep2 := (parseItems_ws f2 (Char.ofNat 32) _ (by decide)).trans hstep
        simp only [List.map_cons, joinComma, encodeJsonString,
          List.cons_append, List.singleton_append, List.append_assoc, List.nil_append] at hstep2
        simp only [List.map_cons, joinComma, encodeJsonString,
          List.cons_append, List.singleton_append, List.append_assoc, List.nil_append]
        rw [parseItems]
        rw [skipWs_quote]
        simp [parseStringBody_encode, skipWs_comma, hstep2]



theorem toList_mk (cs : List Char) : (String.mk cs).toList = cs := rfl

theorem skipWs_lbrack (rest : List Char) :
    skipWs (Char.ofNat 91 :: rest) = Char.ofNat 91 :: rest :=
  skipWs_not_ws _ _ (by decide)

theorem joinComma_enc_head (x : List Char) (xs : List (List Char)) :
    ∃ t, joinComma (encodeJsonString x :: xs) = cQuote :: t := by
  cases xs with
  | nil => exact ⟨x.flatMap escapeChar ++ [cQuote], rfl⟩
  | cons y ys =>
    exact ⟨(x.flatMap escapeChar ++ [cQuote]) ++ Char.ofNat 44 :: Char.ofNat 32 :: joinComma (y :: ys),
      by simp [joinComma, encodeJsonString]⟩

theorem json_loads_dumps (l : List String) : json_loads (json_dumps l) = some l := by
  cases l with
  | nil => decide
  | cons s ls =>
    have hmm : ((s :: ls).map String.toList).map encodeJsonString
        = (s :: ls).map (fun u => encodeJsonString u.toList) := by
      simp [List.map_map, Function.comp]
    have hpi := parseItems_encode ((s :: ls).map String.toList)
      (((s :: ls).map (fun u => encodeJsonString u.toList) |> joinComma |>.length) + 1 + 1) []
      (by simp)
      (by
        have h2 := length_le_joinComma_encode ((s :: ls).map String.toList)
        rw [hmm] at h2
        simp only [List.length_map, List.length_cons] at h2 ⊢
        omega)
    rw [hmm] at hpi
    obtain ⟨t, ht⟩ := joinComma_enc_head s.toList (ls.map fun u => encodeJsonString u.toList)
    simp only [json_dumps, json_loads, toList_mk, List.map_cons, List.cons_append]
    rw [skipWs_lbrack]
    simp only [List.map_cons] at hpi ht
    rw [ht] at hpi ⊢
    simp only [List.cons_append]
    rw [skipWs_quote]
    simp only [if_true, quote_ne_rbrack, if_false]
    rw [show (cQuote :: t) ++ [Char.ofNat 93] = cQuote :: (t ++ [Char.ofNat 93]) from rfl] at hpi
    simp only [List.length_cons, List.length_nil, List.length_append] at hpi ⊢
    rw [hpi]
    simp [skipWs, mk_toList, Function.comp_def, List.map_map]

end McdScraper

namespace McdScraper

/-! ### Record store lemmas -/

theorem get_all_outlets_eq_mapM (rows : List Row) (h : wf_rows rows) :
    rows.mapM row_to_outlet = some (get_all_outlets rows) := by
  induction rows with
  | nil => rfl
  | cons r rows ih =>
    have h1 : (row_to_outlet r).isSome := h r (by simp)
    obtain ⟨o, ho⟩ := Option.isSome_iff_exists.mp h1
    have h2 : wf_rows rows := fun x hx => h x (by simp [hx])
    have hm : (r :: rows).mapM row_to_outlet = some (o :: get_all_outlets rows) := by
      rw [List.mapM_cons, ho, ih h2]; rfl
    rw [hm]
    have : get_all_outlets (r :: rows) = o :: get_all_outlets rows := by
      simp only [get_all_outlets, hm]
    rw [this]

theorem get_all_outlets_append_wf (rows : List Row) (r : Row) (o : Outlet)
    (h : wf_rows rows) (ho : row_to_outlet r = some o) :
    get_all_outlets (rows ++ [r]) = get_all_outlets rows ++ [o] := by
  have h1 := get_all_outlets_eq_mapM rows h
  have hm : (rows ++ [r]).mapM row_to_outlet = some (get_all_outlets rows ++ [o]) := by
    rw [List.mapM_append, h1]
    rw [show ([r].mapM row_to_outlet) = (row_to_outlet r).bind (fun x => some [x]) from rfl, ho]
    rfl
  simp only [get_all_outlets, hm]

theorem mapM_none_of_bad (rows : List Row) (r : Row) (hr : r ∈ rows)
    (hbad : row_to_outlet r = none) : rows.mapM row_to_outlet = none := by
  induction rows with
  | nil => cases hr
  | cons x rows ih =>
    rcases List.mem_cons.mp hr with h | h
    · subst h; rw [List.mapM_cons, hbad]; rfl
    · rw [List.mapM_cons, ih h]
      cases row_to_outlet x <;> rfl

theorem json_dumps_ne_empty (l : List String) : json_dumps l ≠ "" := by
  simp [json_dumps, String.ext_iff]

theorem parse_field_dumps (l : List String) :
    parse_field (some (json_dumps l)) = some l := by
  simp [parse_field, json_dumps_ne_empty, json_loads_dumps]

end McdScraper

namespace McdScraper

/-- C1: the `GET /outlets/(outlet_id)` handler raises `HTTPException(404)`
for a missing id inside its `try` block, but the blanket
`except Exception` clause catches that very exception and re-raises a 500
"Internal server error": the caller observes a 500, not the 404 the
specification promises.  Evaluated at the failing input (empty store,
id 1): the `try` body produces the 404, the handler downgrades it to 500. -/
theorem C1_get_outlet_missing_id_is_500 :
    get_outlet [] 1 = Except.error { status_code := 500, detail := "Internal server error" }
    ∧ get_outlet_try [] 1 = Except.error { status_code := 404, detail := "Outlet not found" } := by
  exact ⟨rfl, rfl⟩

/-- C2 counterexample: a store holding one good record and one record
whose persisted `facilities` payload is the unparsable text `"\x7b"`.  The
claim requires `list_all` to return both records, the corrupt field
degraded to `[]`; the code instead catches the `json.loads` exception in
its blanket handler and returns the empty list, losing the good record
too. -/
theorem C2_counterexample_corrupt_row_drops_batch :
    get_all_outlets
      [{ id := 1, name := "Good", address := "Jalan Ampang", telephone := none,
         latitude := none, longitude := none,
         facilities := some "[]", operating_hours := some "[]", created_at := 0 },
       { id := 2, name := "Corrupt", address := "Jalan B", telephone := none,
         latitude := none, longitude := none,
         facilities := some "\x7b", operating_hours := some "[]", created_at := 1 }] = []
    ∧ ([] : List Outlet).length ≠ 2 := by
  exact ⟨by decide, by decide⟩

/-- C2 (amended): if any stored record has an unparsable facilities or
operating-hours payload, `get_all_outlets` aborts the whole read and
returns the empty list — the store-level failure is swallowed by the
blanket `except` handler and silently converted into an empty result,
rather than isolating the fault to the corrupt record or surfacing an
error. -/
theorem C2_corrupt_row_empties_read (rows : List Row) (r : Row)
    (hr : r ∈ rows) (hbad : row_to_outlet r = none) :
    get_all_outlets rows = [] := by
  simp only [get_all_outlets, mapM_none_of_bad rows r hr hbad]

theorem C2_corrupt_row_empties_read_witness :
    get_all_outlets
      [{ id := 1, name := "Good", address := "Jalan Ampang", telephone := none,
         latitude := none, longitude := none,
         facilities := some "[]", operating_hours := some "[]", created_at := 0 },
       { id := 2, name := "Corrupt", address := "Jalan B", telephone := none,
         latitude := none, longitude := none,
         facilities := some "\x7b", operating_hours := some "[]", created_at := 1 }] = [] :=
  C2_corrupt_row_empties_read _
    { id := 2, name := "Corrupt", address := "Jalan B", telephone := none,
      latitude := none, longitude := none,
      facilities := some "\x7b", operating_hours := some "[]", created_at := 1 }
    (by decide) (by decide)

/-- C8 counterexample: inserting a record whose `name` is the empty
string (with a present address) succeeds and commits a row — SQLite's
`NOT NULL` rejects only NULL, so no `ValidationError` occurs, contrary to
the claim. -/
theorem C8_counterexample_empty_name_insert_succeeds :
    (insert_outlet { rows := [], next_id := 1 } 0
      { name := some "", address := some "Jalan Ampang", telephone := none,
        latitude := none, longitude := none, facilities := none, operating_hours := none }).1
      = Except.ok ()
    ∧ ((insert_outlet { rows := [], next_id := 1 } 0
      { name := some "", address := some "Jalan Ampang", telephone := none,
        latitude := none, longitude := none, facilities := none, operating_hours := none }).2.rows).length
      = 1 := by
  exact ⟨rfl, rfl⟩

/-- C8 (amended): `insert_outlet` fails — with the exception propagated
and the transaction rolled back, leaving the store unchanged — exactly
when `name` or `address` is absent/null; when both are present (empty
strings included) it succeeds, appending one row that is assigned the
autoincrement id and the insertion timestamp. -/
theorem C8_insert_validation (db : DB) (now : Nat) (d : OutletData) :
    ((d.name = none ∨ d.address = none) →
      insert_outlet db now d = (Except.error DBError.insertError, db))
    ∧ (∀ nm ad, d.name = some nm → d.address = some ad →
        (insert_outlet db now d).1 = Except.ok ()
        ∧ (insert_outlet db now d).2.rows = db.rows ++
            [{ id := db.next_id, name := nm, address := ad, telephone := d.telephone,
               latitude := d.latitude, longitude := d.longitude,
               facilities := some (json_dumps (d.facilities.getD [])),
               operating_hours := some (json_dumps (d.operating_hours.getD [])),
               created_at := now }]
        ∧ (insert_outlet db now d).2.next_id = db.next_id + 1) := by
  constructor
  · intro h
    rcases h with h | h
    · cases ha : d.address <;> simp [insert_outlet, h, ha]
    · cases hn : d.name <;> simp [insert_outlet, h, hn]
  · intro nm ad h1 h2
    refine ⟨?_, ?_, ?_⟩ <;> simp [insert_outlet, h1, h2]

theorem C8_insert_validation_witness :
    insert_outlet { rows := [], next_id := 1 } 0
      { name := none, address := some "Jalan Ampang", telephone := none,
        latitude := none, longitude := none, facilities := none, operating_hours := none }
      = (Except.error DBError.insertError, { rows := [], next_id := 1 }) :=
  (C8_insert_validation { rows := [], next_id := 1 } 0
    { name := none, address := some "Jalan Ampang", telephone := none,
      latitude := none, longitude := none, facilities := none, operating_hours := none }).1
    (Or.inl rfl)

/-- C9 counterexample: updating the coordinates of id 5 on an empty store
reports success (`True`) and changes nothing — the claim requires a
`NotFoundError` for an id that does not exist. -/
theorem C9_counterexample_update_missing_id_reports_success :
    update_outlet_coordinates { rows := [], next_id := 1 } 5 3 4
      = (true, { rows := [], next_id := 1 }) := rfl

/-- C9 (amended): `update_outlet_coordinates` always reports success —
the `UPDATE ... WHERE id = ?` is committed without checking the affected
row count.  Row-wise, the record(s) with the requested id get the new
latitude/longitude with every other field intact, all other records are
unchanged, and when the id is absent the whole store is left unchanged
while success is still reported. -/
theorem C9_update_coordinates (db : DB) (outlet_id : Int) (lat lon : ℚ) :
    (update_outlet_coordinates db outlet_id lat lon).1 = true
    ∧ (∀ i : Nat, ((update_outlet_coordinates db outlet_id lat lon).2.rows)[i]? =
        (db.rows[i]?).map fun r =>
          if r.id = outlet_id then { r with latitude := some lat, longitude := some lon } else r)
    ∧ ((∀ r ∈ db.rows, r.id ≠ outlet_id) →
        (update_outlet_coordinates db outlet_id lat lon).2 = db) := by
  refine ⟨rfl, ?_, ?_⟩
  · intro i
    simp [update_outlet_coordinates]
  · intro h
    have heq : ∀ r ∈ db.rows,
        (if r.id = outlet_id then { r with latitude := some lat, longitude := some lon } else r) = r :=
      fun r hr => if_neg (h r hr)
    simp only [update_outlet_coordinates]
    rw [List.map_congr_left heq, List.map_id']

theorem C9_update_coordinates_witness :
    (update_outlet_coordinates
      { rows := [{ id := 1, name := "A", address := "B", telephone := none, latitude := none,
                   longitude := none, facilities := none, operating_hours := none, created_at := 0 }],
        next_id := 2 } 7 3 4).2
    = { rows := [{ id := 1, name := "A", address := "B", telephone := none, latitude := none,
                   longitude := none, facilities := none, operating_hours := none, created_at := 0 }],
        next_id := 2 } :=
  (C9_update_coordinates _ 7 3 4).2.2 (by decide)

/-- C3: inserting a valid record (present, non-empty name and address)
into any well-formed store succeeds, and `list_all` then returns the
previous records followed by the new one, whose `facilities` and
`operating_hours` sequences are element-for-element the sequences given
at insertion (JSON round trip), with the assigned id and timestamp — no
duplication or loss, insertion order preserved. -/
theorem C3_insert_roundtrip (db : DB) (now : Nat) (d : OutletData) (nm ad : String)
    (hn : d.name = some nm) (ha : d.address = some ad) (hn2 : nm ≠ "") (ha2 : ad ≠ "")
    (hwf : wf_rows db.rows) :
    (insert_outlet db now d).1 = Except.ok ()
    ∧ get_all_outlets (insert_outlet db now d).2.rows
      = get_all_outlets db.rows ++
        [{ id := db.next_id, name := nm, address := ad, telephone := d.telephone,
           latitude := d.latitude, longitude := d.longitude,
           facilities := d.facilities.getD [], operating_hours := d.operating_hours.getD [],
           created_at := now }] := by
  have hrow : row_to_outlet
      { id := db.next_id, name := nm, address := ad, telephone := d.telephone,
        latitude := d.latitude, longitude := d.longitude,
        facilities := some (json_dumps (d.facilities.getD [])),
        operating_hours := some (json_dumps (d.operating_hours.getD [])),
        created_at := now }
      = some { id := db.next_id, name := nm, address := ad, telephone := d.telephone,
               latitude := d.latitude, longitude := d.longitude,
               facilities := d.facilities.getD [], operating_hours := d.operating_hours.getD [],
               created_at := now } := by
    simp [row_to_outlet, parse_field_dumps]
  constructor
  · simp [insert_outlet, hn, ha]
  · have h2 : (insert_outlet db now d).2.rows = db.rows ++
        [{ id := db.next_id, name := nm, address := ad, telephone := d.telephone,
           latitude := d.latitude, longitude := d.longitude,
           facilities := some (json_dumps (d.facilities.getD [])),
           operating_hours := some (json_dumps (d.operating_hours.getD [])),
           created_at := now }] := by
      simp [insert_outlet, hn, ha]
    rw [h2, get_all_outlets_append_wf db.rows _ _ hwf hrow]

theorem C3_insert_roundtrip_witness :
    (insert_outlet { rows := [], next_id := 1 } 5
      { name := some "McDonald Bukit Bintang", address := some "Jalan Bukit Bintang, Kuala Lumpur",
        telephone := none, latitude := none, longitude := none,
        facilities := some ["WiFi", "Drive-Thru"], operating_hours := some ["Mon: 24 hours"] }).1
      = Except.ok ()
    ∧ get_all_outlets (insert_outlet { rows := [], next_id := 1 } 5
      { name := some "McDonald Bukit Bintang", address := some "Jalan Bukit Bintang, Kuala Lumpur",
        telephone := none, latitude := none, longitude := none,
        facilities := some ["WiFi", "Drive-Thru"], operating_hours := some ["Mon: 24 hours"] }).2.rows
      = get_all_outlets ([] : List Row) ++
        [{ id := 1, name := "McDonald Bukit Bintang", address := "Jalan Bukit Bintang, Kuala Lumpur",
           telephone := none, latitude := none, longitude := none,
           facilities := ["WiFi", "Drive-Thru"], operating_hours := ["Mon: 24 hours"],
           created_at := 5 }] :=
  C3_insert_roundtrip { rows := [], next_id := 1 } 5
    { name := some "McDonald Bukit Bintang", address := some "Jalan Bukit Bintang, Kuala Lumpur",
      telephone := none, latitude := none, longitude := none,
      facilities := some ["WiFi", "Drive-Thru"], operating_hours := some ["Mon: 24 hours"] }
    "McDonald Bukit Bintang" "Jalan Bukit Bintang, Kuala Lumpur"
    rfl rfl (by decide) (by decide) (by intro r hr; cases hr)

end McdScraper

namespace McdScraper

/-! ### Statistics lemmas -/

theorem facilities_fold_inner (fs : List String) (acc : String → Nat) (f : String) :
    (fs.foldl (fun a2 x => Function.update a2 x (a2 x + 1)) acc) f = acc f + fs.count f := by
  induction fs generalizing acc with
  | nil => simp
  | cons x fs ih =>
    rw [List.foldl_cons, ih, Function.update_apply]
    by_cases h : f = x
    · subst h; simp [List.count_cons]; omega
    · simp [h, List.count_cons]

theorem facilities_fold_outer (outlets : List Outlet) (acc : String → Nat) (f : String) :
    (outlets.foldl
      (fun acc o => o.facilities.foldl (fun a2 x => Function.update a2 x (a2 x + 1)) acc) acc) f
    = acc f + (outlets.flatMap fun o => o.facilities).count f := by
  induction outlets generalizing acc with
  | nil => simp
  | cons o os ih =>
    rw [List.foldl_cons, ih, facilities_fold_inner]
    simp [List.count_append]
    omega

theorem outlets_by_state_fold (outlets : List Outlet) (acc : String → Nat) (label : String) :
    (outlets.foldl
      (fun acc o =>
        Function.update acc (classify_state o.address) (acc (classify_state o.address) + 1)) acc) label
    = acc label + outlets.countP (fun o => classify_state o.address == label) := by
  induction outlets generalizing acc with
  | nil => simp
  | cons o os ih =>
    rw [List.foldl_cons, ih, Function.update_apply, List.countP_cons]
    by_cases h : label = classify_state o.address
    · simp [h]; omega
    · simp [h]
      exact fun hc => h hc.symm

theorem outlets_by_state_count (outlets : List Outlet) (label : String) :
    outlets_by_state outlets label = outlets.countP (fun o => classify_state o.address == label) := by
  simp only [outlets_by_state]
  rw [outlets_by_state_fold]
  simp

theorem facilities_count_eq (outlets : List Outlet) (f : String) :
    facilities_count outlets f = (outlets.flatMap fun o => o.facilities).count f := by
  simp only [facilities_count]
  rw [facilities_fold_outer]
  simp

end McdScraper

namespace McdScraper

/-- C5: `outlets_by_state` of the `/stats` handler classifies each record
by testing the lower-cased address against the fixed substrings in
priority order — "kuala lumpur", then "selangor", then "johor", else
"Other", first match wins — and maps each label to the number of records
so classified; on the three-record example with addresses containing
"Kuala Lumpur", "Selangor" and "Penang" it yields exactly
Kuala Lumpur 1, Selangor 1, Other 1 (and 0 for every other label). -/
theorem C5_stats_state_classification :
    (∀ (outlets : List Outlet) (label : String),
      (get_stats outlets).outlets_by_state label
        = outlets.countP (fun o => classify_state o.address == label))
    ∧ (∀ address : String, containsSubstr (lowerStr address) "kuala lumpur" = true →
        classify_state address = "Kuala Lumpur")
    ∧ (∀ address : String, containsSubstr (lowerStr address) "kuala lumpur" = false →
        containsSubstr (lowerStr address) "selangor" = true →
        classify_state address = "Selangor")
    ∧ (∀ address : String, containsSubstr (lowerStr address) "kuala lumpur" = false →
        containsSubstr (lowerStr address) "selangor" = false →
        containsSubstr (lowerStr address) "johor" = true →
        classify_state address = "Johor")
    ∧ (∀ address : String, containsSubstr (lowerStr address) "kuala lumpur" = false →
        containsSubstr (lowerStr address) "selangor" = false →
        containsSubstr (lowerStr address) "johor" = false →
        classify_state address = "Other")
    ∧ (∀ label : String,
        (get_stats
          [{ id := 1, name := "McD A", address := "Jalan Tun Razak, Kuala Lumpur",
             telephone := none, latitude := none, longitude := none,
             facilities := [], operating_hours := [], created_at := 0 },
           { id := 2, name := "McD B", address := "Jalan SS2, Petaling Jaya, Selangor",
             telephone := none, latitude := none, longitude := none,
             facilities := [], operating_hours := [], created_at := 0 },
           { id := 3, name := "McD C", address := "Jalan Burma, George Town, Penang",
             telephone := none, latitude := none, longitude := none,
             facilities := [], operating_hours := [], created_at := 0 }]).outlets_by_state label
        = if label = "Kuala Lumpur" then 1
          else if label = "Selangor" then 1
          else if label = "Other" then 1 else 0) := by
  have hcount : ∀ (outlets : List Outlet) (label : String),
      (get_stats outlets).outlets_by_state label
        = outlets.countP (fun o => classify_state o.address == label) := by
    intro outlets label
    show outlets_by_state outlets label = _
    exact outlets_by_state_count outlets label
  refine ⟨hcount, ?_, ?_, ?_, ?_, ?_⟩
  · intro address h; simp [classify_state, h]
  · intro address h1 h2; simp [classify_state, h1, h2]
  · intro address h1 h2 h3; simp [classify_state, h1, h2, h3]
  · intro address h1 h2 h3; simp [classify_state, h1, h2, h3]
  · intro label
    rw [hcount]
    have e1 : classify_state "Jalan Tun Razak, Kuala Lumpur" = "Kuala Lumpur" := by decide
    have e2 : classify_state "Jalan SS2, Petaling Jaya, Selangor" = "Selangor" := by decide
    have e3 : classify_state "Jalan Burma, George Town, Penang" = "Other" := by decide
    simp only [List.countP_cons, List.countP_nil, e1, e2, e3]
    by_cases h1 : label = "Kuala Lumpur" <;> by_cases h2 : label = "Selangor" <;>
      by_cases h3 : label = "Other" <;> simp_all <;>
      exact ⟨⟨fun hc => h3 hc.symm, fun hc => h2 hc.symm⟩, fun hc => h1 hc.symm⟩

theorem C5_stats_state_classification_witness :
    classify_state "Jalan Tun Razak, Kuala Lumpur" = "Kuala Lumpur" :=
  C5_stats_state_classification.2.1 "Jalan Tun Razak, Kuala Lumpur" (by decide)

/-- C6 counterexample: a single record listing "WiFi" twice contributes 2
to `facilities_count`, not the 1 that per-record de-duplication would
give. -/
theorem C6_counterexample_duplicate_facility :
    facilities_count
      [{ id := 1, name := "A", address := "B", telephone := none, latitude := none,
         longitude := none, facilities := ["WiFi", "WiFi"], operating_hours := [],
         created_at := 0 }] "WiFi" = 2
    ∧ (2 : Nat) ≠ 1 := by
  exact ⟨by decide, by decide⟩

/-- C6 (amended): `facilities_count` of the `/stats` handler maps each
facility label to its total number of occurrences across all records — a
record repeating a label contributes once per occurrence; there is no
per-record de-duplication. -/
theorem C6_facilities_count_occurrences (outlets : List Outlet) (f : String) :
    (get_stats outlets).facilities_count f = (outlets.flatMap fun o => o.facilities).count f := by
  show facilities_count outlets f = _
  exact facilities_count_eq outlets f

end McdScraper

namespace McdScraper

/-! ### Pagination lemmas -/

theorem containsSeq_nil_needle (l : List Char) : containsSeq l [] = true := by
  cases l <;> simp [containsSeq, startsWithSeq, List.isEmpty]

theorem containsSubstr_empty_needle (hay : String) : containsSubstr hay "" = true := by
  simp [containsSubstr, containsSeq_nil_needle]

theorem get_outlets_filtered (outlets : List Outlet) (skip limit : Nat) (state : Option String) :
    get_outlets outlets skip limit state
      = ((filter_by_state outlets state).drop skip).take limit := by
  cases state with
  | none => rfl
  | some s =>
    by_cases h : s = ""
    · subst h
      have : ∀ o : Outlet, containsSubstr (lowerStr o.address) (lowerStr "") = true := by
        intro o
        rw [show lowerStr "" = "" from rfl]
        exact containsSubstr_empty_needle _
      simp [get_outlets, filter_by_state, List.filter_eq_self.mpr fun o _ => this o]
    · simp [get_outlets, filter_by_state, h]

/-- C7: the `/outlets` list endpoint first applies the optional
case-insensitive state substring filter on the address and then returns
exactly the records at offsets `[skip, skip+limit)` of the filtered
order: at most `limit` records, the record at position `i` of the
response being the record at position `skip + i` of the filtered
sequence, and the empty sequence whenever `skip` is at or beyond the
filtered size.  (`skip ≥ 0` is implicit in `Nat`; FastAPI rejects
parameters outside `skip ≥ 0`, `1 ≤ limit ≤ 100` before the body runs.) -/
theorem C7_list_endpoint_pagination (outlets : List Outlet) (skip limit : Nat)
    (state : Option String) (h1 : 1 ≤ limit) (h2 : limit ≤ 100) :
    (get_outlets outlets skip limit state).length ≤ limit
    ∧ (∀ i : Nat, i < limit →
        (get_outlets outlets skip limit state)[i]? = (filter_by_state outlets state)[skip + i]?)
    ∧ ((filter_by_state outlets state).length ≤ skip →
        get_outlets outlets skip limit state = []) := by
  rw [get_outlets_filtered]
  refine ⟨?_, ?_, ?_⟩
  · exact List.length_take_le limit _
  · intro i hi
    rw [List.getElem?_take_of_lt hi, List.getElem?_drop]
  · intro hle
    rw [List.drop_eq_nil_of_le hle]
    simp

theorem C7_list_endpoint_pagination_witness :
    (get_outlets
      [{ id := 1, name := "McD A", address := "Jalan Tun Razak, Kuala Lumpur",
         telephone := none, latitude := none, longitude := none,
         facilities := [], operating_hours := [], created_at := 0 },
       { id := 2, name := "McD B", address := "Jalan SS2, Selangor",
         telephone := none, latitude := none, longitude := none,
         facilities := [], operating_hours := [], created_at := 0 },
       { id := 3, name := "McD C", address := "Jalan Klang Lama, kuala lumpur",
         telephone := none, latitude := none, longitude := none,
         facilities := [], operating_hours := [], created_at := 0 }] 1 2 (some "Kuala Lumpur")).length
      ≤ 2 :=
  (C7_list_endpoint_pagination _ 1 2 (some "Kuala Lumpur") (by decide) (by decide)).1

end McdScraper

namespace McdScraper

/-! ### Nearby lemmas -/

theorem nearbyLE_trans : ∀ a b c : Outlet × ℚ,
    (fun p q : Outlet × ℚ => decide (p.2 ≤ q.2)) a b →
    (fun p q : Outlet × ℚ => decide (p.2 ≤ q.2)) b c →
    (fun p q : Outlet × ℚ => decide (p.2 ≤ q.2)) a c := by
  intro a b c hab hbc
  simp only [decide_eq_true_eq] at hab hbc ⊢
  exact le_trans hab hbc

theorem nearbyLE_total : ∀ a b : Outlet × ℚ,
    ((fun p q : Outlet × ℚ => decide (p.2 ≤ q.2)) a b
      || (fun p q : Outlet × ℚ => decide (p.2 ≤ q.2)) b a) := by
  intro a b
  simp only [Bool.or_eq_true, decide_eq_true_eq]
  exact le_total a.2 b.2

theorem mem_nearby_candidates (outlets : List Outlet) (la lo r : ℚ) (p : Outlet × ℚ) :
    p ∈ nearby_candidates outlets la lo r ↔
      p.1 ∈ outlets ∧ truthy p.1.latitude = true ∧ truthy p.1.longitude = true
      ∧ calculate_distance la lo (p.1.latitude.getD 0) (p.1.longitude.getD 0) ≤ (r : ℝ)
      ∧ p.2 = round2 (calculate_distance la lo (p.1.latitude.getD 0) (p.1.longitude.getD 0)) := by
  simp only [nearby_candidates, List.mem_filterMap, List.mem_filter]
  constructor
  · rintro ⟨o, ⟨ho, hcoord⟩, hf⟩
    by_cases hd : calculate_distance la lo (o.latitude.getD 0) (o.longitude.getD 0) ≤ (r : ℝ)
    · rw [if_pos hd] at hf
      cases hf
      rw [Bool.and_eq_true] at hcoord
      rcases hcoord with ⟨hlat, hlon⟩
      exact ⟨ho, hlat, hlon, hd, rfl⟩
    · rw [if_neg hd] at hf
      cases hf
  · rintro ⟨h1, h2, h3, h4, h5⟩
    refine ⟨p.1, ⟨h1, by rw [h2, h3]; rfl⟩, ?_⟩
    rw [if_pos h4, ← h5]

/-- C4: for radiuses in the accepted range `[0.1, 100]`, the `/nearby`
handler returns exactly the outlets whose coordinates are present (in the
code's truthiness sense) and whose haversine distance (Earth radius
6371 km) from the query point is at most `radius_km`, each paired with
that distance rounded to 2 decimal places as `distance_km`; the result is
sorted ascending by the attached `distance_km`, and the sort is stable —
any run of the candidate list whose attached distances are
non-decreasing, in particular any run of ties, keeps its original
relative order in the output. -/
theorem C4_nearby_spec (outlets : List Outlet) (latitude longitude radius_km : ℚ)
    (hr1 : (0.1 : ℚ) ≤ radius_km) (hr2 : radius_km ≤ 100) :
    (∀ p : Outlet × ℚ, p ∈ get_nearby_outlets outlets latitude longitude radius_km ↔
      (p.1 ∈ outlets ∧ truthy p.1.latitude = true ∧ truthy p.1.longitude = true
       ∧ calculate_distance latitude longitude (p.1.latitude.getD 0) (p.1.longitude.getD 0)
           ≤ (radius_km : ℝ)
       ∧ p.2 = round2 (calculate_distance latitude longitude
           (p.1.latitude.getD 0) (p.1.longitude.getD 0))))
    ∧ (get_nearby_outlets outlets latitude longitude radius_km).Pairwise
        (fun p q : Outlet × ℚ => p.2 ≤ q.2)
    ∧ (∀ c : List (Outlet × ℚ),
        c.Pairwise (fun p q : Outlet × ℚ => p.2 ≤ q.2) →
        c.Sublist (nearby_candidates outlets latitude longitude radius_km) →
        c.Sublist (get_nearby_outlets outlets latitude longitude radius_km)) := by
  refine ⟨?_, ?_, ?_⟩
  · intro p
    rw [show get_nearby_outlets outlets latitude longitude radius_km
          = (nearby_candidates outlets latitude longitude radius_km).mergeSort
              (fun p q => decide (p.2 ≤ q.2)) from rfl]
    rw [List.mem_mergeSort]
    exact mem_nearby_candidates outlets latitude longitude radius_km p
  · have hs := List.sorted_mergeSort nearbyLE_trans nearbyLE_total
      (nearby_candidates outlets latitude longitude radius_km)
    exact hs.imp fun h => decide_eq_true_eq.mp h
  · intro c hpw hsub
    apply List.sublist_mergeSort nearbyLE_trans nearbyLE_total ?_ hsub
    exact hpw.imp fun h => by simpa using h

theorem C4_nearby_spec_witness :
    ((0.1 : ℚ) ≤ 10 ∧ (10 : ℚ) ≤ 100)
    ∧ (get_nearby_outlets [] 3 101 10).Pairwise (fun p q : Outlet × ℚ => p.2 ≤ q.2) :=
  ⟨⟨by norm_num, by norm_num⟩, (C4_nearby_spec [] 3 101 10 (by norm_num) (by norm_num)).2.1⟩

/-- C10: the `/nearby` handler tests coordinate presence with Python
truthiness (`if outlet['latitude'] and outlet['longitude']`), so a record
whose latitude or longitude is exactly 0 — or absent — is never returned,
for any query point and radius. -/
theorem C10_nearby_zero_coordinate_excluded (outlets : List Outlet) (la lo r : ℚ) (o : Outlet)
    (h : o.latitude = none ∨ o.latitude = some 0 ∨ o.longitude = none ∨ o.longitude = some 0) :
    ∀ d : ℚ, (o, d) ∉ get_nearby_outlets outlets la lo r := by
  intro d hmem
  rw [show get_nearby_outlets outlets la lo r
        = (nearby_candidates outlets la lo r).mergeSort
            (fun p q => decide (p.2 ≤ q.2)) from rfl, List.mem_mergeSort,
      mem_nearby_candidates] at hmem
  obtain ⟨-, h2, h3, -, -⟩ := hmem
  rcases h with h | h | h | h
  · rw [show (o, d).1 = o from rfl, h] at h2; simp [truthy] at h2
  · rw [show (o, d).1 = o from rfl, h] at h2; simp [truthy] at h2
  · rw [show (o, d).1 = o from rfl, h] at h3; simp [truthy] at h3
  · rw [show (o, d).1 = o from rfl, h] at h3; simp [truthy] at h3

theorem C10_nearby_zero_coordinate_excluded_witness :
    ({ id := 1, name := "Zero", address := "Equator", telephone := none,
       latitude := some 0, longitude := some 5,
       facilities := [], operating_hours := [], created_at := 0 }, (0 : ℚ))
      ∉ get_nearby_outlets
        [{ id := 1, name := "Zero", address := "Equator", telephone := none,
           latitude := some 0, longitude := some 5,
           facilities := [], operating_hours := [], created_at := 0 }] 3 4 10 :=
  C10_nearby_zero_coordinate_excluded _ 3 4 10 _ (Or.inr (Or.inl rfl)) 0

end McdScraper
